import Mathlib

/-!
Verification development for the FerrisFire input-proxy core.

The Rust sources (`src/proxy.rs`, `src/humanize.rs`, `src/config.rs`) are
shallowly embedded below: machine integers become `Nat`/`Int` with explicit
wrap-around where the source wraps, `f64` arithmetic on exact decimal
constants becomes `ℚ`, `Instant`/`Duration` comparisons that depend on real
time become per-tick boolean oracles, and the random samples drawn by the
humanizer become explicit parameters constrained to the ranges the source
draws from.
-/

namespace FerrisFire

/-- Linux input event type for key events (`EventType::KEY`). -/
def EV_KEY : Nat := 1

/-- Linux input event type for synchronization events (`EventType::SYNCHRONIZATION`). -/
def EV_SYN : Nat := 0

/-- Key code `BTN_LEFT` (0x110). -/
def BTN_LEFT : Nat := 272

/-- Key code `BTN_RIGHT` (0x111). -/
def BTN_RIGHT : Nat := 273

/-- Key code `BTN_MIDDLE` (0x112). -/
def BTN_MIDDLE : Nat := 274

/-- Key code `BTN_SIDE` (0x113). -/
def BTN_SIDE : Nat := 275

/-- Key code `BTN_EXTRA` (0x114). -/
def BTN_EXTRA : Nat := 276

/-- Key code `BTN_FORWARD` (0x115). -/
def BTN_FORWARD : Nat := 277

/-- Key code `BTN_BACK` (0x116). -/
def BTN_BACK : Nat := 278

/-- Key code `BTN_TASK` (0x117). -/
def BTN_TASK : Nat := 279

/-- Key code `BTN_GEAR_DOWN` (0x150). -/
def BTN_GEAR_DOWN : Nat := 336

/-- Key code `BTN_GEAR_UP` (0x151). -/
def BTN_GEAR_UP : Nat := 337

/-- Key code `KEY_F13` (183); F14..F24 follow consecutively. -/
def KEY_F13 : Nat := 183

/-- Synchronization code `SYN_REPORT` (0). -/
def SYN_REPORT : Nat := 0

/-- One raw evdev event: `{ type, code, value }` (timestamps are irrelevant to
the embedded logic and omitted). -/
structure InputEvent where
  etype : Nat
  code : Nat
  value : Int
deriving DecidableEq

/-- The preset trigger buttons of `config.rs` (`enum TriggerButton`). -/
inductive TriggerButton where
  | Mouse3 | Mouse4 | Mouse5 | Mouse6 | Mouse7 | Mouse8
  | ScrollUp | ScrollDown
  | KeyF13 | KeyF14 | KeyF15 | KeyF16 | KeyF17 | KeyF18
  | KeyF19 | KeyF20 | KeyF21 | KeyF22 | KeyF23 | KeyF24
deriving DecidableEq

/-- `TriggerButton::to_key_code` from `config.rs`. -/
def TriggerButton.to_key_code : TriggerButton → Nat
  | .Mouse3 => BTN_MIDDLE
  | .Mouse4 => BTN_SIDE
  | .Mouse5 => BTN_EXTRA
  | .Mouse6 => BTN_FORWARD
  | .Mouse7 => BTN_BACK
  | .Mouse8 => BTN_TASK
  | .ScrollUp => BTN_GEAR_UP
  | .ScrollDown => BTN_GEAR_DOWN
  | .KeyF13 => KEY_F13
  | .KeyF14 => KEY_F13 + 1
  | .KeyF15 => KEY_F13 + 2
  | .KeyF16 => KEY_F13 + 3
  | .KeyF17 => KEY_F13 + 4
  | .KeyF18 => KEY_F13 + 5
  | .KeyF19 => KEY_F13 + 6
  | .KeyF20 => KEY_F13 + 7
  | .KeyF21 => KEY_F13 + 8
  | .KeyF22 => KEY_F13 + 9
  | .KeyF23 => KEY_F13 + 10
  | .KeyF24 => KEY_F13 + 11

/-- The serialized (serde externally-tagged) name of each `TriggerButton`
variant: the variant identifier itself. -/
def TriggerButton.serName : TriggerButton → String
  | .Mouse3 => "Mouse3"
  | .Mouse4 => "Mouse4"
  | .Mouse5 => "Mouse5"
  | .Mouse6 => "Mouse6"
  | .Mouse7 => "Mouse7"
  | .Mouse8 => "Mouse8"
  | .ScrollUp => "ScrollUp"
  | .ScrollDown => "ScrollDown"
  | .KeyF13 => "KeyF13"
  | .KeyF14 => "KeyF14"
  | .KeyF15 => "KeyF15"
  | .KeyF16 => "KeyF16"
  | .KeyF17 => "KeyF17"
  | .KeyF18 => "KeyF18"
  | .KeyF19 => "KeyF19"
  | .KeyF20 => "KeyF20"
  | .KeyF21 => "KeyF21"
  | .KeyF22 => "KeyF22"
  | .KeyF23 => "KeyF23"
  | .KeyF24 => "KeyF24"

/-- Deserialization of a `TriggerButton` from its serde variant name. -/
def TriggerButton.fromName : String → Option TriggerButton
  | "Mouse3" => some .Mouse3
  | "Mouse4" => some .Mouse4
  | "Mouse5" => some .Mouse5
  | "Mouse6" => some .Mouse6
  | "Mouse7" => some .Mouse7
  | "Mouse8" => some .Mouse8
  | "ScrollUp" => some .ScrollUp
  | "ScrollDown" => some .ScrollDown
  | "KeyF13" => some .KeyF13
  | "KeyF14" => some .KeyF14
  | "KeyF15" => some .KeyF15
  | "KeyF16" => some .KeyF16
  | "KeyF17" => some .KeyF17
  | "KeyF18" => some .KeyF18
  | "KeyF19" => some .KeyF19
  | "KeyF20" => some .KeyF20
  | "KeyF21" => some .KeyF21
  | "KeyF22" => some .KeyF22
  | "KeyF23" => some .KeyF23
  | "KeyF24" => some .KeyF24
  | _ => none

/-- `struct Config` from `config.rs`. `u64` fields are `Nat` (no arithmetic
on them ever overflows in the embedded code paths), `u16` is `Nat`. -/
structure Config where
  device_path : String
  trigger_button : TriggerButton
  custom_trigger_code : Option Nat
  click_delay_min_ms : Nat
  click_delay_max_ms : Nat
  travel_time_min_ms : Nat
  travel_time_max_ms : Nat
  use_gaussian : Bool
  simulate_fatigue : Bool
  fatigue_max_percent : Nat
  travel_jitter : Bool
  burst_mode : Bool
  burst_count : Nat
  burst_pause_ms : Nat
  smart_ads_trigger : Bool
deriving DecidableEq

/-- `default_fatigue_max_percent()` from `config.rs`. -/
def default_fatigue_max_percent : Nat := 30

/-- `default_burst_count()` from `config.rs`. -/
def default_burst_count : Nat := 4

/-- `default_burst_pause_ms()` from `config.rs`. -/
def default_burst_pause_ms : Nat := 100

/-- `impl Default for Config` from `config.rs`. -/
def Config.default : Config where
  device_path := ""
  trigger_button := .Mouse4
  custom_trigger_code := none
  click_delay_min_ms := 45
  click_delay_max_ms := 80
  travel_time_min_ms := 10
  travel_time_max_ms := 25
  use_gaussian := false
  simulate_fatigue := false
  fatigue_max_percent := default_fatigue_max_percent
  travel_jitter := false
  burst_mode := false
  burst_count := default_burst_count
  burst_pause_ms := default_burst_pause_ms
  smart_ads_trigger := false

/-- `Config::effective_trigger_code` from `config.rs`. -/
def Config.effective_trigger_code (c : Config) : Nat :=
  match c.custom_trigger_code with
  | some code => code
  | none => c.trigger_button.to_key_code

/-- `struct FatigueTracker` from `humanize.rs`. The `f64` field
`max_slowdown_percent` holds the exact value `p / 100` and is embedded in ℚ. -/
structure FatigueTracker where
  click_count : Nat
  max_slowdown_percent : ℚ
  cycle_length : Nat
deriving DecidableEq

/-- `FatigueTracker::new` from `humanize.rs`. -/
def FatigueTracker.new (max_slowdown_percent : Nat) : FatigueTracker where
  click_count := 0
  max_slowdown_percent := (max_slowdown_percent : ℚ) / 100
  cycle_length := 100

/-- `FatigueTracker::get_multiplier` from `humanize.rs`: three phases over
`click_count % cycle_length` (ramp below 50% of the cycle, plateau below 80%,
recovery to the end). The decimal `f64` constants 0.5, 0.8, 0.2 are the exact
rationals 1/2, 4/5, 1/5. -/
def FatigueTracker.get_multiplier (t : FatigueTracker) : ℚ :=
  let position : ℚ := ((t.click_count % t.cycle_length : Nat) : ℚ)
  let cycle : ℚ := (t.cycle_length : ℚ)
  if position < cycle * (1 / 2) then
    1 + t.max_slowdown_percent * (position / (cycle * (1 / 2)))
  else if position < cycle * (4 / 5) then
    1 + t.max_slowdown_percent
  else
    1 + t.max_slowdown_percent * (1 - (position - cycle * (4 / 5)) / (cycle * (1 / 5)))

/-- `FatigueTracker::click` from `humanize.rs` (`wrapping_add(1)` on a u64). -/
def FatigueTracker.click (t : FatigueTracker) : FatigueTracker :=
  { t with click_count := (t.click_count + 1) % 2 ^ 64 }

/-- `FatigueTracker::reset` from `humanize.rs`. -/
def FatigueTracker.reset (t : FatigueTracker) : FatigueTracker :=
  { t with click_count := 0 }

/-- `struct BurstTracker` from `humanize.rs`. -/
structure BurstTracker where
  clicks_in_burst : Nat
  burst_size : Nat
  pause_ms : Nat
  in_pause : Bool
deriving DecidableEq

/-- `BurstTracker::new` from `humanize.rs`. -/
def BurstTracker.new (burst_size pause_ms : Nat) : BurstTracker where
  clicks_in_burst := 0
  burst_size := burst_size
  pause_ms := pause_ms
  in_pause := false

/-- `BurstTracker::should_pause` from `humanize.rs`. -/
def BurstTracker.should_pause (t : BurstTracker) : Bool :=
  t.in_pause

/-- `BurstTracker::pause_duration` from `humanize.rs`: the caller samples
`variance` uniformly from the half-open interval [0.8, 1.2); the result in
milliseconds is `(pause_ms as f64 * variance) as u64`, a truncation toward
zero, embedded as the integer floor. -/
def BurstTracker.pause_duration (t : BurstTracker) (variance : ℚ) : Nat :=
  (⌊(t.pause_ms : ℚ) * variance⌋).toNat

/-- `BurstTracker::click` from `humanize.rs`: returns (burst complete, new
state). The u64 increment wraps modulo 2^64. -/
def BurstTracker.click (t : BurstTracker) : Bool × BurstTracker :=
  if t.in_pause then
    (true, t)
  else
    let c := (t.clicks_in_burst + 1) % 2 ^ 64
    if t.burst_size ≤ c then
      (true, { t with clicks_in_burst := c, in_pause := true })
    else
      (false, { t with clicks_in_burst := c })

/-- `BurstTracker::end_pause` from `humanize.rs`. -/
def BurstTracker.end_pause (t : BurstTracker) : BurstTracker :=
  { t with clicks_in_burst := 0, in_pause := false }

/-- `BurstTracker::reset` from `humanize.rs`. -/
def BurstTracker.reset (t : BurstTracker) : BurstTracker :=
  { t with clicks_in_burst := 0, in_pause := false }

/-- The fatigue multiplier of a tracker built by `FatigueTracker::new(p)`
after its click counter has reached `n`. -/
def fatigueMultiplierAt (p n : Nat) : ℚ :=
  FatigueTracker.get_multiplier { FatigueTracker.new p with click_count := n }

/-- The burst-tracker state after `k` successive `click()` calls. -/
def BurstTracker.afterClicks (t : BurstTracker) : Nat → BurstTracker
  | 0 => t
  | k + 1 => ((t.afterClicks k).click).2

/-- The mutable local state of `run_proxy_loop` in `proxy.rs`. Booleans
`button_down` and `burst_pausing` stand for `button_down_since.is_some()` and
`burst_pause_start.is_some()`; the `Instant`/`Duration` values themselves are
abstracted into the per-tick `TickOracle` below. -/
structure ProxyState where
  trigger_held : Bool
  rmb_held : Bool
  lmb_held : Bool
  button_down : Bool
  burst_pausing : Bool
  fatigue : FatigueTracker
  burst : BurstTracker
deriving DecidableEq

/-- The initial per-run state set up by `run_proxy_loop` before its loop. -/
def ProxyState.init (c : Config) : ProxyState where
  trigger_held := false
  rmb_held := false
  lmb_held := false
  button_down := false
  burst_pausing := false
  fatigue := FatigueTracker.new c.fatigue_max_percent
  burst := BurstTracker.new c.burst_count c.burst_pause_ms

/-- Outcomes of the wall-clock comparisons made during one loop iteration of
`run_proxy_loop`; they depend on `Instant::now`, the sampled durations and
thread scheduling, so each tick takes them as oracle inputs. -/
structure TickOracle where
  travel_elapsed : Bool
  pause_elapsed : Bool
  interval_elapsed : Bool
deriving DecidableEq

/-- One write made to the virtual device: a forwarded physical event, or one
of the two synthetic click frames. -/
inductive Emission where
  | passthrough (ev : InputEvent)
  | synthDown
  | synthUp
deriving DecidableEq

/-- The event frame written by `emit_button_down` in `proxy.rs`: a KEY press
of `BTN_LEFT` followed by a `SYN_REPORT`. -/
def emit_button_down : List InputEvent :=
  [⟨EV_KEY, BTN_LEFT, 1⟩, ⟨EV_SYN, SYN_REPORT, 0⟩]

/-- The event frame written by `emit_button_up` in `proxy.rs`: a KEY release
of `BTN_LEFT` followed by a `SYN_REPORT`. -/
def emit_button_up : List InputEvent :=
  [⟨EV_KEY, BTN_LEFT, 0⟩, ⟨EV_SYN, SYN_REPORT, 0⟩]

/-- The list of raw events one `Emission` writes to the virtual device
(forwarded events are emitted alone, `&[event]`). -/
def renderEmission : Emission → List InputEvent
  | .passthrough ev => [ev]
  | .synthDown => emit_button_down
  | .synthUp => emit_button_up

/-- The cleanup block repeated at `proxy.rs` lines 96-102, 119-125 and
144-150: release any in-flight synthetic press, reset the fatigue and burst
trackers, clear the pending burst pause. -/
def forceCleanup (s : ProxyState) : ProxyState × List Emission :=
  let (s1, out) :=
    if s.button_down then
      ({ s with button_down := false }, [Emission.synthUp])
    else
      (s, [])
  ({ s1 with fatigue := s1.fatigue.reset, burst := s1.burst.reset,
             burst_pausing := false }, out)

/-- Processing of a single fetched event inside the `for event in events`
loop of `run_proxy_loop` (`proxy.rs` lines 81-160). -/
def processEvent (c : Config) (s : ProxyState) (e : InputEvent) : ProxyState × List Emission :=
  if e.etype = EV_KEY then
    if c.smart_ads_trigger then
      if e.code = BTN_RIGHT then
        let was_held := s.rmb_held
        let s := { s with rmb_held := e.value = 1 }
        let (s, out) :=
          if was_held ∧ ¬(e.value = 1) ∧ s.lmb_held then forceCleanup s else (s, [])
        (s, out ++ [Emission.passthrough e])
      else if e.code = BTN_LEFT then
        let was_held := s.lmb_held
        let s := { s with lmb_held := e.value = 1 }
        if s.rmb_held then
          if was_held ∧ ¬(e.value = 1) then forceCleanup s else (s, [])
        else
          (s, [Emission.passthrough e])
      else
        (s, [Emission.passthrough e])
    else
      if e.code = c.effective_trigger_code then
        let was_held := s.trigger_held
        let s := { s with trigger_held := e.value = 1 }
        if was_held ∧ ¬(e.value = 1) then forceCleanup s else (s, [])
      else
        (s, [Emission.passthrough e])
  else
    (s, [Emission.passthrough e])

/-- Processing of one whole batch of fetched events, in order. -/
def processEvents (c : Config) (s : ProxyState) : List InputEvent → ProxyState × List Emission
  | [] => (s, [])
  | e :: rest =>
    let (s1, out1) := processEvent c s e
    let (s2, out2) := processEvents c s1 rest
    (s2, out1 ++ out2)

/-- `rapid_fire_active` as computed at `proxy.rs` lines 210-214. -/
def rapid_fire_active (c : Config) (s : ProxyState) : Bool :=
  if c.smart_ads_trigger then s.rmb_held && s.lmb_held else s.trigger_held

/-- The click-release and click-start sections of one loop iteration
(`proxy.rs` lines 184-226): release the in-flight press when its travel time
elapsed (recording the click with the fatigue and burst trackers), then start
a new press when the trigger is active, nothing is in flight, the interval
elapsed and no burst pause is due. -/
def clickLogic (c : Config) (s : ProxyState) (orc : TickOracle) : ProxyState × List Emission :=
  let (s, out1) :=
    if s.button_down ∧ orc.travel_elapsed then
      let s := { s with button_down := false }
      let s := if c.simulate_fatigue then { s with fatigue := s.fatigue.click } else s
      let s :=
        if c.burst_mode then
          let r := s.burst.click
          let s := { s with burst := r.2 }
          if r.1 then { s with burst_pausing := true } else s
        else s
      (s, [Emission.synthUp])
    else
      (s, [])
  let should_click := rapid_fire_active c s
      && !s.button_down
      && orc.interval_elapsed
      && (!c.burst_mode || !s.burst.should_pause)
  if should_click then
    ({ s with button_down := true }, out1 ++ [Emission.synthDown])
  else
    (s, out1)

/-- The burst-pause gate at `proxy.rs` lines 169-182 followed by the click
logic: while a burst pause is pending and not yet elapsed the iteration
`continue`s; once elapsed the pause ends and the click logic runs. -/
def tickAfterEvents (c : Config) (s : ProxyState) (orc : TickOracle) : ProxyState × List Emission :=
  if c.burst_mode ∧ s.burst_pausing then
    if orc.pause_elapsed then
      clickLogic c { s with burst := s.burst.end_pause, burst_pausing := false } orc
    else
      (s, [])
  else
    clickLogic c s orc

/-- One full loop iteration on a successful (possibly empty) fetch. -/
def proxyTick (c : Config) (s : ProxyState) (orc : TickOracle) (evs : List InputEvent) :
    ProxyState × List Emission :=
  let (s1, out1) := processEvents c s evs
  let (s2, out2) := tickAfterEvents c s1 orc
  (s2, out1 ++ out2)

/-- Outcome of one `physical.fetch_events()` call. -/
inductive FetchOutcome where
  | ok (evs : List InputEvent)
  | wouldBlock
  | ioError (msg : String)
deriving DecidableEq

/-- The `while !stop` loop of `run_proxy_loop`, driven by the per-iteration
fetch outcomes and timing oracles; the list ending corresponds to the stop
signal being observed, and a non-WouldBlock fetch error `break`s out. -/
def runLoop (c : Config) (s : ProxyState) :
    List (FetchOutcome × TickOracle) → ProxyState × List Emission
  | [] => (s, [])
  | (f, orc) :: rest =>
    match f with
    | .ioError _ => (s, [])
    | .wouldBlock =>
      let (s1, out1) := tickAfterEvents c s orc
      let (s2, out2) := runLoop c s1 rest
      (s2, out1 ++ out2)
    | .ok evs =>
      let (s1, out1) := proxyTick c s orc evs
      let (s2, out2) := runLoop c s1 rest
      (s2, out1 ++ out2)

/-- The synthetic/passthrough output of one whole proxy run that got past
device setup: the loop followed by the final cleanup (`proxy.rs` lines
232-235), which releases the button if still held. -/
def runOutput (c : Config) (ticks : List (FetchOutcome × TickOracle)) : List Emission :=
  (runLoop c (ProxyState.init c) ticks).2
    ++ (if (runLoop c (ProxyState.init c) ticks).1.button_down then [Emission.synthUp] else [])

/-- `run_proxy_loop` from `proxy.rs` as a whole: the three fallible setup
steps (`open_device`, `grab`, `create_virtual_clone`) each abort with a
descriptive error; otherwise the loop runs and the function returns `Ok`
(also when the loop was ended by a fetch error, which is only logged). -/
def run_proxy_loop (c : Config) (openErr grabErr cloneErr : Option String)
    (ticks : List (FetchOutcome × TickOracle)) : Except String (List Emission) :=
  match openErr with
  | some e => .error ("Failed to open device: " ++ e)
  | none =>
    match grabErr with
    | some e => .error ("Failed to grab device: " ++ e)
    | none =>
      match cloneErr with
      | some e => .error ("Failed to create virtual device: " ++ e)
      | none => .ok (runOutput c ticks)

/-- Validity of an emission sequence with respect to the single-click-in-
flight discipline: given whether a synthetic press is outstanding, a press may
be emitted only when none is outstanding and a release only when one is;
returns the outstanding flag after the sequence, or `none` on a violation. -/
def runAlt : Bool → List Emission → Option Bool
  | b, [] => some b
  | b, .passthrough _ :: rest => runAlt b rest
  | b, .synthDown :: rest => if b then none else runAlt true rest
  | b, .synthUp :: rest => if b then runAlt false rest else none

/-- JSON values, as far as a persisted `Config` needs them (all numeric
fields of `Config` are unsigned integers). -/
inductive Json where
  | null
  | bool (b : Bool)
  | num (n : Nat)
  | str (s : String)
  | obj (fields : List (String × Json))

/-- Key lookup in a JSON object (serde reads the first occurrence of a key;
the serializer never duplicates keys). -/
def Json.lookup : List (String × Json) → String → Option Json
  | [], _ => none
  | (k, v) :: rest, key => if k = key then some v else Json.lookup rest key

/-- Decoding of a `u64`/`u16` field. -/
def Json.asNat : Json → Option Nat
  | .num n => some n
  | _ => none

/-- Decoding of a `bool` field. -/
def Json.asBool : Json → Option Bool
  | .bool b => some b
  | _ => none

/-- Decoding of a `String` field. -/
def Json.asStr : Json → Option String
  | .str s => some s
  | _ => none

/-- Decoding of an `Option<u16>` field (`null` is `None`). -/
def Json.asOptNat : Json → Option (Option Nat)
  | .null => some none
  | .num n => some (some n)
  | _ => none

/-- Serialization of a `Config` by the serde derive: one JSON object with
every field present, in declaration order; `TriggerButton` as its variant
name, `Option<u16>` as `null` or a number. -/
def Config.toJson (c : Config) : Json :=
  .obj
    [("device_path", .str c.device_path),
     ("trigger_button", .str c.trigger_button.serName),
     ("custom_trigger_code",
       match c.custom_trigger_code with
       | none => .null
       | some n => .num n),
     ("click_delay_min_ms", .num c.click_delay_min_ms),
     ("click_delay_max_ms", .num c.click_delay_max_ms),
     ("travel_time_min_ms", .num c.travel_time_min_ms),
     ("travel_time_max_ms", .num c.travel_time_max_ms),
     ("use_gaussian", .bool c.use_gaussian),
     ("simulate_fatigue", .bool c.simulate_fatigue),
     ("fatigue_max_percent", .num c.fatigue_max_percent),
     ("travel_jitter", .bool c.travel_jitter),
     ("burst_mode", .bool c.burst_mode),
     ("burst_count", .num c.burst_count),
     ("burst_pause_ms", .num c.burst_pause_ms),
     ("smart_ads_trigger", .bool c.smart_ads_trigger)]

/-- Deserialization of a `Config` by the serde derive: fields without a
`#[serde(default)]` attribute are required; `custom_trigger_code` defaults to
`None`, the humanization flags to `false`, and the three parameters to their
`default_*` functions when the key is absent. -/
def Config.fromJson : Json → Option Config
  | .obj fs => do
    let device_path ← (Json.lookup fs "device_path").bind Json.asStr
    let trigger_button ←
      (Json.lookup fs "trigger_button").bind Json.asStr |>.bind TriggerButton.fromName
    let custom_trigger_code ←
      match Json.lookup fs "custom_trigger_code" with
      | none => some none
      | some v => v.asOptNat
    let click_delay_min_ms ← (Json.lookup fs "click_delay_min_ms").bind Json.asNat
    let click_delay_max_ms ← (Json.lookup fs "click_delay_max_ms").bind Json.asNat
    let travel_time_min_ms ← (Json.lookup fs "travel_time_min_ms").bind Json.asNat
    let travel_time_max_ms ← (Json.lookup fs "travel_time_max_ms").bind Json.asNat
    let use_gaussian ←
      match Json.lookup fs "use_gaussian" with
      | none => some false
      | some v => v.asBool
    let simulate_fatigue ←
      match Json.lookup fs "simulate_fatigue" with
      | none => some false
      | some v => v.asBool
    let fatigue_max_percent ←
      match Json.lookup fs "fatigue_max_percent" with
      | none => some default_fatigue_max_percent
      | some v => v.asNat
    let travel_jitter ←
      match Json.lookup fs "travel_jitter" with
      | none => some false
      | some v => v.asBool
    let burst_mode ←
      match Json.lookup fs "burst_mode" with
      | none => some false
      | some v => v.asBool
    let burst_count ←
      match Json.lookup fs "burst_count" with
      | none => some default_burst_count
      | some v => v.asNat
    let burst_pause_ms ←
      match Json.lookup fs "burst_pause_ms" with
      | none => some default_burst_pause_ms
      | some v => v.asNat
    let smart_ads_trigger ←
      match Json.lookup fs "smart_ads_trigger" with
      | none => some false
      | some v => v.asBool
    pure
      { device_path := device_path
        trigger_button := trigger_button
        custom_trigger_code := custom_trigger_code
        click_delay_min_ms := click_delay_min_ms
        click_delay_max_ms := click_delay_max_ms
        travel_time_min_ms := travel_time_min_ms
        travel_time_max_ms := travel_time_max_ms
        use_gaussian := use_gaussian
        simulate_fatigue := simulate_fatigue
        fatigue_max_percent := fatigue_max_percent
        travel_jitter := travel_jitter
        burst_mode := burst_mode
        burst_count := burst_count
        burst_pause_ms := burst_pause_ms
        smart_ads_trigger := smart_ads_trigger }
  | _ => none

/-- `Config::load` from `config.rs`: parameterized over the environment (does
the file exist, what did `read_to_string` return, what does
`serde_json::from_str` make of the contents). The return type is `Config`,
not a result: no error can surface. -/
def Config.load (fileExists : Bool) (readResult : Option String)
    (parse : String → Option Config) : Config :=
  if fileExists then
    match readResult with
    | some contents =>
      match parse contents with
      | some c => c
      | none => Config.default
    | none => Config.default
  else
    Config.default

/-! ### Concrete instances used by counterexamples and witnesses -/

/-- Configuration used by the C2 counterexample: single-trigger mode with a
custom trigger code 275 (`BTN_SIDE`). -/
def repeatCfg : Config := { Config.default with custom_trigger_code := some 275 }

/-- State used by the C2 counterexample: trigger held, a synthetic click in
flight, and nonzero fatigue/burst progress. -/
def repeatSt : ProxyState :=
  { ProxyState.init repeatCfg with
      trigger_held := true
      button_down := true
      fatigue := { FatigueTracker.new 30 with click_count := 7 }
      burst := { BurstTracker.new 4 100 with clicks_in_burst := 2 } }

/-- An autorepeat event (value 2) for the configured trigger code. -/
def repeatEv : InputEvent := ⟨EV_KEY, 275, 2⟩

/-- A run whose single loop iteration hits a non-WouldBlock I/O error. -/
def readFailTicks : List (FetchOutcome × TickOracle) :=
  [(FetchOutcome.ioError "boom", ⟨false, false, false⟩)]

/-- A dual-trigger (smart ADS) configuration. -/
def smartCfg : Config := { Config.default with smart_ads_trigger := true }

/-- A dual-mode state in which both keys are held and a click is in flight. -/
def firingSt : ProxyState :=
  { ProxyState.init smartCfg with rmb_held := true, lmb_held := true, button_down := true }

/-! ### Helper lemmas -/

theorem fatigueMultiplierAt_ramp (p n : Nat) (h : n % 100 < 50) :
    fatigueMultiplierAt p n = 1 + (p : ℚ) / 100 * (((n % 100 : Nat) : ℚ) / 50) := by
  unfold fatigueMultiplierAt FatigueTracker.get_multiplier FatigueTracker.new
  norm_num
  intro h2
  exact absurd h2 (by omega)

theorem fatigueMultiplierAt_plateau (p n : Nat) (h1 : 50 ≤ n % 100) (h2 : n % 100 < 80) :
    fatigueMultiplierAt p n = 1 + (p : ℚ) / 100 := by
  unfold fatigueMultiplierAt FatigueTracker.get_multiplier FatigueTracker.new
  norm_num
  rw [if_neg (by omega), if_pos h2]

theorem fatigueMultiplierAt_recovery (p n : Nat) (h : 80 ≤ n % 100) :
    fatigueMultiplierAt p n = 1 + (p : ℚ) / 100 * (1 - (((n % 100 : Nat) : ℚ) - 80) / 20) := by
  unfold fatigueMultiplierAt FatigueTracker.get_multiplier FatigueTracker.new
  norm_num
  rw [if_neg (by omega), if_neg (by omega)]

theorem BurstTracker.afterClicks_add (t : BurstTracker) (a b : Nat) :
    t.afterClicks (a + b) = (t.afterClicks a).afterClicks b := by
  induction b with
  | zero => rfl
  | succ b ih => rw [← Nat.add_assoc, BurstTracker.afterClicks, ih, BurstTracker.afterClicks]

theorem BurstTracker.click_paused (u : BurstTracker) (hu : u.in_pause = true) :
    u.click = (true, u) := by
  simp [BurstTracker.click, hu]

theorem BurstTracker.afterClicks_paused (u : BurstTracker) (hu : u.in_pause = true) (k : Nat) :
    u.afterClicks k = u := by
  induction k with
  | zero => rfl
  | succ k ih => rw [BurstTracker.afterClicks, ih, BurstTracker.click_paused u hu]

theorem BurstTracker.afterClicks_lt (t : BurstTracker) (k : Nat)
    (hk : k < t.burst_size) (hb : t.burst_size < 2 ^ 64) :
    t.reset.afterClicks k = { t with clicks_in_burst := k, in_pause := false } := by
  induction k with
  | zero => rfl
  | succ k ih =>
    rw [BurstTracker.afterClicks, ih (by omega)]
    simp only [BurstTracker.click]
    rw [if_neg (by simp), Nat.mod_eq_of_lt (by omega)]
    rw [if_neg (by simp; omega)]

theorem BurstTracker.afterClicks_complete (t : BurstTracker)
    (hb1 : 1 ≤ t.burst_size) (hb2 : t.burst_size < 2 ^ 64) :
    t.reset.afterClicks t.burst_size
      = { t with clicks_in_burst := t.burst_size, in_pause := true } := by
  rw [show t.burst_size = (t.burst_size - 1) + 1 by omega]
  rw [BurstTracker.afterClicks, BurstTracker.afterClicks_lt t (t.burst_size - 1) (by omega) hb2]
  simp only [BurstTracker.click]
  rw [if_neg (by simp), Nat.mod_eq_of_lt (by omega)]
  rw [if_pos (by omega)]
  simp
  omega

theorem runAlt_append (b : Bool) (xs ys : List Emission) :
    runAlt b (xs ++ ys) = (runAlt b xs).bind fun b2 => runAlt b2 ys := by
  induction xs generalizing b with
  | nil => rfl
  | cons x rest ih =>
    cases x with
    | passthrough ev => simpa [runAlt] using ih b
    | synthDown =>
      cases b with
      | false => simpa [runAlt] using ih true
      | true => simp [runAlt]
    | synthUp =>
      cases b with
      | false => simp [runAlt]
      | true => simpa [runAlt] using ih false

theorem forceCleanup_alt (s : ProxyState) :
    runAlt s.button_down (forceCleanup s).2 = some (forceCleanup s).1.button_down := by
  by_cases h : s.button_down <;> simp [forceCleanup, h, runAlt]

theorem processEvent_alt (c : Config) (s : ProxyState) (e : InputEvent) :
    runAlt s.button_down (processEvent c s e).2 = some (processEvent c s e).1.button_down := by
  simp only [processEvent]
  repeat' split
  all_goals
    simp_all [runAlt_append, runAlt, forceCleanup_alt, forceCleanup]
  all_goals
    by_cases h : s.button_down <;> simp_all [runAlt]

theorem processEvents_alt (c : Config) (s : ProxyState) (evs : List InputEvent) :
    runAlt s.button_down (processEvents c s evs).2
      = some (processEvents c s evs).1.button_down := by
  induction evs generalizing s with
  | nil => rfl
  | cons e rest ih =>
    simp only [processEvents, runAlt_append, processEvent_alt, Option.bind_some]
    exact ih (processEvent c s e).1

theorem clickLogic_alt (c : Config) (s : ProxyState) (orc : TickOracle) :
    runAlt s.button_down (clickLogic c s orc).2 = some (clickLogic c s orc).1.button_down := by
  simp only [clickLogic]
  repeat' split
  all_goals simp_all [runAlt_append, runAlt]

theorem tickAfterEvents_alt (c : Config) (s : ProxyState) (orc : TickOracle) :
    runAlt s.button_down (tickAfterEvents c s orc).2
      = some (tickAfterEvents c s orc).1.button_down := by
  simp only [tickAfterEvents]
  repeat' split
  · exact clickLogic_alt c { s with burst := s.burst.end_pause, burst_pausing := false } orc
  · simp [runAlt]
  · exact clickLogic_alt c s orc

theorem proxyTick_alt (c : Config) (s : ProxyState) (orc : TickOracle) (evs : List InputEvent) :
    runAlt s.button_down (proxyTick c s orc evs).2
      = some (proxyTick c s orc evs).1.button_down := by
  simp only [proxyTick, runAlt_append, processEvents_alt, Option.bind_some]
  exact tickAfterEvents_alt c _ orc

theorem runLoop_alt (c : Config) (s : ProxyState) (ticks : List (FetchOutcome × TickOracle)) :
    runAlt s.button_down (runLoop c s ticks).2 = some (runLoop c s ticks).1.button_down := by
  induction ticks generalizing s with
  | nil => rfl
  | cons t rest ih =>
    obtain ⟨f, orc⟩ := t
    cases f with
    | ioError msg => simp [runLoop, runAlt]
    | wouldBlock =>
      simp only [runLoop, runAlt_append, tickAfterEvents_alt, Option.bind_some]
      exact ih (tickAfterEvents c s orc).1
    | ok evs =>
      simp only [runLoop, runAlt_append, proxyTick_alt, Option.bind_some]
      exact ih (proxyTick c s orc evs).1

/-! ### Claim theorems -/

/-- C1: Throughout a proxy run, at most one synthetic click is in flight at
any time: over the full emission sequence of any run (any configuration, any
sequence of fetch outcomes, timing-oracle values and event batches, final
cleanup included), synthetic press and release emissions strictly alternate
starting with a press — a press is emitted only with no press outstanding, a
release only with one outstanding (so a trigger release never yields a double
or missed release) — and the run ends with no press outstanding. -/
theorem synthetic_click_alternation (c : Config) (ticks : List (FetchOutcome × TickOracle)) :
    runAlt false (runOutput c ticks) = some false := by
  have h := runLoop_alt c (ProxyState.init c) ticks
  simp only [runOutput, runAlt_append]
  rw [show (ProxyState.init c).button_down = false from rfl] at h
  rw [h]
  by_cases hb : (runLoop c (ProxyState.init c) ticks).1.button_down <;> simp [hb, runAlt]

/-- C2 counterexample: an autorepeat event (value 2) for the trigger code is
NOT a no-op — the code sets `trigger_held` from `value == 1`, so the repeat
clears the held state, counts as a falling edge, force-releases the in-flight
click and resets the fatigue and burst trackers. -/
theorem trigger_repeat_event_clears_held :
    (processEvent repeatCfg repeatSt repeatEv).1.trigger_held = false
    ∧ (processEvent repeatCfg repeatSt repeatEv).2 = [Emission.synthUp]
    ∧ (processEvent repeatCfg repeatSt repeatEv).1.fatigue.click_count = 0
    ∧ (processEvent repeatCfg repeatSt repeatEv).1.burst.clicks_in_burst = 0 := by
  decide

/-- C2 (amended): in single-trigger mode, any event on the trigger code sets
`held` to `value == 1` and is never passed through; when the trigger was held,
any value other than 1 — including an autorepeat (value 2) — counts as a
falling edge and triggers the cleanup (forced release of an in-flight click,
fatigue and burst reset); when it was not held, or the value is 1, no cleanup
runs. -/
theorem trigger_value_ne_one_counts_as_release (c : Config) (s : ProxyState) (v : Int)
    (hsm : c.smart_ads_trigger = false) :
    ((processEvent c s ⟨EV_KEY, c.effective_trigger_code, v⟩).1.trigger_held = decide (v = 1))
    ∧ (∀ ev, Emission.passthrough ev ∉ (processEvent c s ⟨EV_KEY, c.effective_trigger_code, v⟩).2)
    ∧ (s.trigger_held = true → v ≠ 1 →
        (processEvent c s ⟨EV_KEY, c.effective_trigger_code, v⟩).1.fatigue = s.fatigue.reset
        ∧ (processEvent c s ⟨EV_KEY, c.effective_trigger_code, v⟩).1.burst = s.burst.reset
        ∧ (processEvent c s ⟨EV_KEY, c.effective_trigger_code, v⟩).1.burst_pausing = false
        ∧ (processEvent c s ⟨EV_KEY, c.effective_trigger_code, v⟩).1.button_down = false
        ∧ (processEvent c s ⟨EV_KEY, c.effective_trigger_code, v⟩).2
            = if s.button_down then [Emission.synthUp] else [])
    ∧ ((s.trigger_held = false ∨ v = 1) →
        (processEvent c s ⟨EV_KEY, c.effective_trigger_code, v⟩).1.button_down = s.button_down
        ∧ (processEvent c s ⟨EV_KEY, c.effective_trigger_code, v⟩).2 = []) := by
  simp only [processEvent, hsm, Bool.false_eq_true, if_false, if_true]
  by_cases hv : v = 1 <;> by_cases ht : s.trigger_held <;> by_cases hb : s.button_down <;>
    simp_all [forceCleanup, FatigueTracker.reset, BurstTracker.reset]

/-- C2 witness: the amended statement applied at the counterexample input. -/
theorem trigger_value_ne_one_counts_as_release_witness :
    (processEvent repeatCfg repeatSt repeatEv).1.trigger_held = decide ((2 : Int) = 1)
    ∧ (processEvent repeatCfg repeatSt repeatEv).2
        = if repeatSt.button_down then [Emission.synthUp] else [] :=
  ⟨(trigger_value_ne_one_counts_as_release repeatCfg repeatSt 2 rfl).1,
   ((trigger_value_ne_one_counts_as_release repeatCfg repeatSt 2 rfl).2.2.1
      rfl (by decide)).2.2.2.2⟩

/-- C3 counterexample: a non-WouldBlock I/O error while polling terminates
the loop but `run_proxy_loop` then returns `Ok` (the error is only logged),
not the `Err` the claim requires. -/
theorem read_failure_returns_ok :
    run_proxy_loop Config.default none none none readFailTicks = Except.ok [] := rfl

/-- C3 (amended): failure to open the device, to grab it, or to create the
virtual clone each abort the run with a single descriptive `Err`; WouldBlock
while polling is treated exactly as an empty fetch; any other polling I/O
error terminates the loop immediately — but after best-effort cleanup the
function returns `Ok`, the read error being only logged, so a successful
setup always yields `Ok`. (Emit failures are absorbed: emissions are
unconditional in the loop model.) -/
theorem run_proxy_loop_error_policy (c : Config) (msg : String)
    (grabErr cloneErr : Option String) (ticks rest : List (FetchOutcome × TickOracle))
    (s : ProxyState) (orc : TickOracle) :
    run_proxy_loop c (some msg) grabErr cloneErr ticks
        = Except.error ("Failed to open device: " ++ msg)
    ∧ run_proxy_loop c none (some msg) cloneErr ticks
        = Except.error ("Failed to grab device: " ++ msg)
    ∧ run_proxy_loop c none none (some msg) ticks
        = Except.error ("Failed to create virtual device: " ++ msg)
    ∧ run_proxy_loop c none none none ticks = Except.ok (runOutput c ticks)
    ∧ runLoop c s ((FetchOutcome.wouldBlock, orc) :: rest)
        = runLoop c s ((FetchOutcome.ok [], orc) :: rest)
    ∧ runLoop c s ((FetchOutcome.ioError msg, orc) :: rest) = (s, []) :=
  ⟨rfl, rfl, rfl, rfl, rfl, rfl⟩

/-- C4: in dual-trigger (smart ADS) mode, firing is `rmb_held AND lmb_held`;
aim-key (right button) events are always forwarded; fire-key (left button)
events are forwarded iff the aim key is not held; and a release of either key
while firing forces the cleanup: the in-flight synthetic press (if any) is
released and the fatigue and burst trackers are reset. -/
theorem dual_trigger_mode_behavior (c : Config) (s : ProxyState) (v : Int)
    (hsm : c.smart_ads_trigger = true) :
    (rapid_fire_active c s = (s.rmb_held && s.lmb_held))
    ∧ (Emission.passthrough ⟨EV_KEY, BTN_RIGHT, v⟩
        ∈ (processEvent c s ⟨EV_KEY, BTN_RIGHT, v⟩).2)
    ∧ ((Emission.passthrough ⟨EV_KEY, BTN_LEFT, v⟩
        ∈ (processEvent c s ⟨EV_KEY, BTN_LEFT, v⟩).2) ↔ s.rmb_held = false)
    ∧ (s.rmb_held = true → s.lmb_held = true →
        ∀ e : InputEvent,
          (e = ⟨EV_KEY, BTN_RIGHT, 0⟩ ∨ e = ⟨EV_KEY, BTN_LEFT, 0⟩) →
          (processEvent c s e).1.button_down = false
          ∧ (s.button_down = true → Emission.synthUp ∈ (processEvent c s e).2)
          ∧ (processEvent c s e).1.fatigue = s.fatigue.reset
          ∧ (processEvent c s e).1.burst = s.burst.reset
          ∧ (processEvent c s e).1.burst_pausing = false) := by
  refine ⟨by simp [rapid_fire_active, hsm], ?_, ?_, ?_⟩
  · simp only [processEvent, hsm]
    by_cases hw : s.rmb_held <;> by_cases hv : v = 1 <;> by_cases hl : s.lmb_held <;>
      by_cases hb : s.button_down <;>
      simp_all [forceCleanup, EV_KEY, BTN_RIGHT, BTN_LEFT]
  · simp only [processEvent, hsm]
    by_cases hr : s.rmb_held <;> by_cases hw : s.lmb_held <;> by_cases hv : v = 1 <;>
      by_cases hb : s.button_down <;>
      simp_all [forceCleanup, EV_KEY, BTN_RIGHT, BTN_LEFT]
  · intro hr hl e he
    rcases he with he | he <;> subst he <;>
      simp_all [processEvent, hsm, forceCleanup, EV_KEY, BTN_RIGHT, BTN_LEFT,
        FatigueTracker.reset, BurstTracker.reset] <;>
      by_cases hb : s.button_down <;> simp_all

/-- C4 witness: the dual-mode properties applied at a concrete firing state:
an aim-key release there releases the in-flight click and forwards the event. -/
theorem dual_trigger_mode_behavior_witness :
    rapid_fire_active smartCfg firingSt = (firingSt.rmb_held && firingSt.lmb_held)
    ∧ (firingSt.button_down = true →
        Emission.synthUp ∈ (processEvent smartCfg firingSt ⟨EV_KEY, BTN_RIGHT, 0⟩).2)
    ∧ (processEvent smartCfg firingSt ⟨EV_KEY, BTN_RIGHT, 0⟩).1.button_down = false :=
  ⟨(dual_trigger_mode_behavior smartCfg firingSt 0 rfl).1,
   ((dual_trigger_mode_behavior smartCfg firingSt 0 rfl).2.2.2 rfl rfl
      ⟨EV_KEY, BTN_RIGHT, 0⟩ (Or.inl rfl)).2.1,
   ((dual_trigger_mode_behavior smartCfg firingSt 0 rfl).2.2.2 rfl rfl
      ⟨EV_KEY, BTN_RIGHT, 0⟩ (Or.inl rfl)).1⟩

/-- C5: the fatigue multiplier of a tracker built by `FatigueTracker::new(p)`
always lies in `[1, 1 + p/100]`; it is exactly 1 whenever the click counter is
a multiple of the 100-click cycle; over one cycle it follows the linear ramp
`1 + (p/100)·(pos/50)` for positions below 50, stays flat at `1 + p/100` for
positions in `[50, 80)`, and follows the decreasing line
`1 + (p/100)·(1 − (pos−80)/20)` for positions in `[80, 100)`; and it is
monotone within each of the three phases. -/
theorem fatigue_multiplier_phases (p n : Nat) :
    (1 ≤ fatigueMultiplierAt p n ∧ fatigueMultiplierAt p n ≤ 1 + (p : ℚ) / 100)
    ∧ (n % 100 = 0 → fatigueMultiplierAt p n = 1)
    ∧ (n % 100 < 50 → fatigueMultiplierAt p n = 1 + (p : ℚ) / 100 * (((n % 100 : Nat) : ℚ) / 50))
    ∧ (50 ≤ n % 100 → n % 100 < 80 → fatigueMultiplierAt p n = 1 + (p : ℚ) / 100)
    ∧ (80 ≤ n % 100 → fatigueMultiplierAt p n
        = 1 + (p : ℚ) / 100 * (1 - (((n % 100 : Nat) : ℚ) - 80) / 20))
    ∧ (∀ i j : Nat, i ≤ j → j < 50 → fatigueMultiplierAt p i ≤ fatigueMultiplierAt p j)
    ∧ (∀ i j : Nat, 50 ≤ i → i < 80 → 50 ≤ j → j < 80 →
        fatigueMultiplierAt p i = fatigueMultiplierAt p j)
    ∧ (∀ i j : Nat, 80 ≤ i → i ≤ j → j < 100 →
        fatigueMultiplierAt p j ≤ fatigueMultiplierAt p i) := by
  have hmax : (0 : ℚ) ≤ (p : ℚ) / 100 := by positivity
  refine ⟨?_, ?_, fatigueMultiplierAt_ramp p n, fatigueMultiplierAt_plateau p n,
    fatigueMultiplierAt_recovery p n, ?_, ?_, ?_⟩
  · rcases Nat.lt_or_ge (n % 100) 50 with h | h
    · rw [fatigueMultiplierAt_ramp p n h]
      have hq : ((n % 100 : Nat) : ℚ) < 50 := by exact_mod_cast h
      have hq0 : (0 : ℚ) ≤ ((n % 100 : Nat) : ℚ) := by positivity
      constructor
      · nlinarith
      · nlinarith
    · rcases Nat.lt_or_ge (n % 100) 80 with h2 | h2
      · rw [fatigueMultiplierAt_plateau p n h h2]
        constructor <;> linarith
      · rw [fatigueMultiplierAt_recovery p n h2]
        have hq : (80 : ℚ) ≤ ((n % 100 : Nat) : ℚ) := by exact_mod_cast h2
        have h99 : ((n % 100 : Nat) : ℚ) ≤ 99 := by
          have h3 : n % 100 ≤ 99 := by omega
          exact_mod_cast h3
        constructor
        · nlinarith
        · nlinarith
  · intro h0
    rw [fatigueMultiplierAt_ramp p n (by omega)]
    rw [h0]
    norm_num
  · intro i j hij hj
    rw [fatigueMultiplierAt_ramp p i (by omega), fatigueMultiplierAt_ramp p j (by omega)]
    rw [Nat.mod_eq_of_lt (by omega : i < 100), Nat.mod_eq_of_lt (by omega : j < 100)]
    gcongr
  · intro i j h1 h2 h3 h4
    rw [fatigueMultiplierAt_plateau p i (by omega) (by omega),
      fatigueMultiplierAt_plateau p j (by omega) (by omega)]
  · intro i j h1 hij hj
    rw [fatigueMultiplierAt_recovery p i (by omega), fatigueMultiplierAt_recovery p j (by omega)]
    rw [Nat.mod_eq_of_lt (by omega : i < 100), Nat.mod_eq_of_lt (by omega : j < 100)]
    gcongr

/-- C5 witness: the phase properties applied at concrete counter values with
the default 30% maximum slowdown. -/
theorem fatigue_multiplier_phases_witness :
    (1 ≤ fatigueMultiplierAt 30 123 ∧ fatigueMultiplierAt 30 123 ≤ 1 + (30 : ℚ) / 100)
    ∧ fatigueMultiplierAt 30 200 = 1
    ∧ fatigueMultiplierAt 30 55 = fatigueMultiplierAt 30 70
    ∧ fatigueMultiplierAt 30 95 ≤ fatigueMultiplierAt 30 85 :=
  ⟨(fatigue_multiplier_phases 30 123).1,
   (fatigue_multiplier_phases 30 200).2.1 (by decide),
   (fatigue_multiplier_phases 30 0).2.2.2.2.2.2.1 55 70
     (by decide) (by decide) (by decide) (by decide),
   (fatigue_multiplier_phases 30 0).2.2.2.2.2.2.2 85 95
     (by decide) (by decide) (by decide)⟩

/-- C6: starting from a freshly reset `BurstTracker` with `burstSize ≥ 1`
(and `burstSize` a u64 value), `click()` returns false for each of the first
`burstSize − 1` clicks, returns true exactly on the `burstSize`-th click and
sets `inPause`; every further `click()` while paused returns true without
incrementing the counter; and `end_pause()` resets the counter to 0 and
clears `inPause`. -/
theorem burst_click_behavior (t : BurstTracker) (hb1 : 1 ≤ t.burst_size)
    (hb2 : t.burst_size < 2 ^ 64) :
    (∀ k, k + 1 < t.burst_size → ((t.reset.afterClicks k).click).1 = false)
    ∧ ((t.reset.afterClicks (t.burst_size - 1)).click).1 = true
    ∧ (t.reset.afterClicks t.burst_size).in_pause = true
    ∧ (∀ k, (t.reset.afterClicks (t.burst_size + k)).clicks_in_burst = t.burst_size
        ∧ ((t.reset.afterClicks (t.burst_size + k)).click).1 = true)
    ∧ (∀ u : BurstTracker, u.in_pause = true → u.click = (true, u))
    ∧ (∀ u : BurstTracker, u.end_pause.clicks_in_burst = 0 ∧ u.end_pause.in_pause = false) := by
  have hcomp := BurstTracker.afterClicks_complete t hb1 hb2
  refine ⟨?_, ?_, ?_, ?_, BurstTracker.click_paused, ?_⟩
  · intro k hk
    rw [BurstTracker.afterClicks_lt t k (by omega) hb2]
    simp only [BurstTracker.click]
    rw [if_neg (by simp), Nat.mod_eq_of_lt (by omega)]
    rw [if_neg (by simp; omega)]
  · rw [BurstTracker.afterClicks_lt t (t.burst_size - 1) (by omega) hb2]
    simp only [BurstTracker.click]
    rw [if_neg (by simp), Nat.mod_eq_of_lt (by omega)]
    rw [if_pos (by omega)]
  · rw [hcomp]
  · intro k
    rw [BurstTracker.afterClicks_add, hcomp,
      BurstTracker.afterClicks_paused _ (by simp) k]
    constructor
    · rfl
    · rw [BurstTracker.click_paused _ (by simp)]
  · intro u
    simp [BurstTracker.end_pause]

/-- C6 witness: with the default burst size 4, the third click returns false,
the fourth returns true, and the tracker is paused after four clicks. -/
theorem burst_click_behavior_witness :
    (((BurstTracker.new 4 100).reset.afterClicks 2).click).1 = false
    ∧ (((BurstTracker.new 4 100).reset.afterClicks 3).click).1 = true
    ∧ ((BurstTracker.new 4 100).reset.afterClicks 4).in_pause = true :=
  ⟨(burst_click_behavior (BurstTracker.new 4 100) (by decide) (by show (4:Nat) < 2 ^ 64; norm_num)).1 2 (by decide),
   (burst_click_behavior (BurstTracker.new 4 100) (by decide) (by show (4:Nat) < 2 ^ 64; norm_num)).2.1,
   (burst_click_behavior (BurstTracker.new 4 100) (by decide) (by show (4:Nat) < 2 ^ 64; norm_num)).2.2.1⟩

/-- C7 counterexample: with `pause_ms = 3` and variance `0.9 ∈ [0.8, 1.2)`,
`pause_duration` truncates `3 × 0.9 = 2.7` to 2 ms, strictly below the
claimed inclusive lower band `0.8 × 3 = 2.4` ms. -/
theorem pause_duration_below_band :
    ((4 : ℚ) / 5 ≤ 9 / 10 ∧ (9 : ℚ) / 10 < 6 / 5)
    ∧ BurstTracker.pause_duration (BurstTracker.new 4 3) (9 / 10) = 2
    ∧ ¬ ((4 : ℚ) / 5 * ((BurstTracker.new 4 3).pause_ms : ℚ)
          ≤ ((BurstTracker.pause_duration (BurstTracker.new 4 3) (9 / 10) : Nat) : ℚ)) := by
  have h2 : BurstTracker.pause_duration (BurstTracker.new 4 3) (9 / 10) = 2 := by
    norm_num [BurstTracker.pause_duration, BurstTracker.new]
    rfl
  refine ⟨⟨by norm_num, by norm_num⟩, h2, ?_⟩
  rw [h2]
  norm_num [BurstTracker.new]

/-- C7 (amended): for every configured `pause_ms` and every variance draw
`v ∈ [0.8, 1.2)`, `pause_duration` returns `⌊pause_ms · v⌋` milliseconds,
which lies in `[⌊0.8 · pause_ms⌋, 1.2 · pause_ms]`; the truncation can push
the result below `0.8 · pause_ms` itself by less than one millisecond. -/
theorem pause_duration_amended_bounds (t : BurstTracker) (v : ℚ)
    (h1 : 4 / 5 ≤ v) (h2 : v < 6 / 5) :
    (⌊(4 : ℚ) / 5 * (t.pause_ms : ℚ)⌋.toNat ≤ t.pause_duration v)
    ∧ ((t.pause_duration v : ℚ) ≤ 6 / 5 * (t.pause_ms : ℚ)) := by
  have hp : (0 : ℚ) ≤ (t.pause_ms : ℚ) := by positivity
  have hmul : (4 : ℚ) / 5 * (t.pause_ms : ℚ) ≤ (t.pause_ms : ℚ) * v := by nlinarith
  have hge : (0 : ℚ) ≤ (t.pause_ms : ℚ) * v := by nlinarith
  have h0 : (0 : ℤ) ≤ ⌊(t.pause_ms : ℚ) * v⌋ := Int.floor_nonneg.mpr hge
  unfold BurstTracker.pause_duration
  constructor
  · exact Int.toNat_le_toNat (Int.floor_mono hmul)
  · have hcast : ((⌊(t.pause_ms : ℚ) * v⌋.toNat : Nat) : ℚ) = ((⌊(t.pause_ms : ℚ) * v⌋ : ℤ) : ℚ) := by
      exact_mod_cast congrArg (fun z : ℤ => (z : ℚ)) (Int.toNat_of_nonneg h0)
    rw [hcast]
    calc ((⌊(t.pause_ms : ℚ) * v⌋ : ℤ) : ℚ) ≤ (t.pause_ms : ℚ) * v := Int.floor_le _
    _ ≤ 6 / 5 * (t.pause_ms : ℚ) := by nlinarith

/-- C7 witness: the amended bounds applied at the default 100 ms pause with
variance 1. -/
theorem pause_duration_amended_bounds_witness :
    (⌊(4 : ℚ) / 5 * ((BurstTracker.new 4 100).pause_ms : ℚ)⌋.toNat
        ≤ (BurstTracker.new 4 100).pause_duration 1)
    ∧ (((BurstTracker.new 4 100).pause_duration 1 : Nat) : ℚ)
        ≤ 6 / 5 * ((BurstTracker.new 4 100).pause_ms : ℚ) :=
  ⟨(pause_duration_amended_bounds (BurstTracker.new 4 100) 1 (by norm_num) (by norm_num)).1,
   (pause_duration_amended_bounds (BurstTracker.new 4 100) 1 (by norm_num) (by norm_num)).2⟩

/-- C8: each synthetic click emission is a frame of exactly one KEY event for
`BTN_LEFT` (value 1 for the press frame, 0 for the release frame) followed by
one `SYN_REPORT` synchronization event; the only synthetic frames the proxy
can emit are these two, and neither depends on the configured trigger key or
trigger mode (the frames are closed constants). -/
theorem emit_frames_left_button_sync :
    renderEmission Emission.synthDown = emit_button_down
    ∧ renderEmission Emission.synthUp = emit_button_up
    ∧ emit_button_down
        = [InputEvent.mk EV_KEY BTN_LEFT 1, InputEvent.mk EV_SYN SYN_REPORT 0]
    ∧ emit_button_up
        = [InputEvent.mk EV_KEY BTN_LEFT 0, InputEvent.mk EV_SYN SYN_REPORT 0]
    ∧ (emit_button_down.filter fun e => e.etype == EV_KEY)
        = [InputEvent.mk EV_KEY BTN_LEFT 1]
    ∧ (emit_button_up.filter fun e => e.etype == EV_KEY)
        = [InputEvent.mk EV_KEY BTN_LEFT 0]
    ∧ emit_button_down.getLast? = some (InputEvent.mk EV_SYN SYN_REPORT 0)
    ∧ emit_button_up.getLast? = some (InputEvent.mk EV_SYN SYN_REPORT 0)
    ∧ (∀ em : Emission, (∀ ev, em ≠ Emission.passthrough ev) →
        renderEmission em = emit_button_down ∨ renderEmission em = emit_button_up) := by
  refine ⟨rfl, rfl, rfl, rfl, by decide, by decide, by decide, by decide, ?_⟩
  intro em hem
  cases em with
  | passthrough ev => exact absurd rfl (hem ev)
  | synthDown => exact Or.inl rfl
  | synthUp => exact Or.inr rfl

/-- C8 witness: the frame classification applied to the synthetic press. -/
theorem emit_frames_left_button_sync_witness :
    renderEmission Emission.synthDown = emit_button_down
    ∨ renderEmission Emission.synthDown = emit_button_up :=
  emit_frames_left_button_sync.2.2.2.2.2.2.2.2 Emission.synthDown
    (fun _ h => Emission.noConfusion h)

/-- C9: serializing any `Config` to its persisted JSON form and
deserializing the result yields the original configuration, field for field. -/
theorem config_json_roundtrip (c : Config) : Config.fromJson (Config.toJson c) = some c := by
  rcases c with ⟨dp, tb, ctc, a, b, d, e, f, g, h, i, j, k, l, m⟩
  cases ctc <;> cases tb <;> rfl

/-- C10: `Config::load` is total (its result type is `Config`, not a result
type) and absorbs every failure: an absent file, an unreadable file, and
unparseable contents all yield `Config::default()`. -/
theorem config_load_total_default (fileExists : Bool) (readResult : Option String)
    (parse : String → Option Config)
    (h : fileExists = false ∨ readResult = none
        ∨ ∃ s, readResult = some s ∧ parse s = none) :
    Config.load fileExists readResult parse = Config.default := by
  rcases h with h | h | ⟨s, hs, hp⟩
  · simp [Config.load, h]
  · cases fileExists <;> simp [Config.load, h]
  · cases fileExists <;> simp [Config.load, hs, hp]

/-- C10 witness: an absent config file loads the default configuration. -/
theorem config_load_total_default_witness :
    Config.load false none (fun _ => none) = Config.default :=
  config_load_total_default false none (fun _ => none) (Or.inl rfl)

end FerrisFire
